import Mathlib

/-!
Shallow embedding of `custom_components/lunos/fan.py` (LUNOS e2/eGO heat
recovery ventilation fan control, a Home Assistant integration).

The repository ships only `fan.py`.  Two sibling modules it imports,
`const.py` (string constants, `SPEED_SWITCH_STATES`) and `__init__.py`
(`LUNOS_CODING_CONFIG`), are not part of the sources; the few definitions
taken from them are marked `Modelled from the spec:` in their doc comments.

Conventions of the embedding:
* a relay state is a `Bool` (`true` = on);
* the mutable fields of a `LUNOSFan` instance that the verified operations
  touch are collected in `FanState`; static configuration (the controller
  variant flags, relay entity ids, fan count) in `FanConfig`;
* real time is a rational-number clock carried in `FanState.now`;
  `asyncio.sleep d` advances it by `d` and records an `Eff.sleep d` event;
* every Home Assistant `switch` service call is recorded as an
  `Eff.callSwitch method entity` event;
* an `async` operation is a function `FanState → Except String (FanState × List Eff)`
  (`Except.error` models an uncaught Python exception); operations that
  cannot raise are plain `FanState → FanState × List Eff`.
-/

/-- `homeassistant.const.SERVICE_TURN_ON` (external collaborator constant). -/
def SERVICE_TURN_ON : String := "turn_on"

/-- `homeassistant.const.SERVICE_TURN_OFF` (external collaborator constant). -/
def SERVICE_TURN_OFF : String := "turn_off"

/-- `homeassistant.const.SERVICE_TOGGLE` (external collaborator constant). -/
def SERVICE_TOGGLE : String := "toggle"

/-- Modelled from the spec: `const.py` is not in the sources; the speed names
OFF/LOW/MEDIUM/HIGH/TURBO form the `SpeedName` enum of the spec.  Only the
distinctness of the values matters to the claims. -/
def SPEED_OFF : String := "off"

/-- Modelled from the spec: speed name LOW (see `SPEED_OFF`). -/
def SPEED_LOW : String := "low"

/-- Modelled from the spec: speed name MEDIUM (see `SPEED_OFF`). -/
def SPEED_MEDIUM : String := "medium"

/-- Modelled from the spec: speed name HIGH (see `SPEED_OFF`). -/
def SPEED_HIGH : String := "high"

/-- Modelled from the spec: speed name TURBO (see `SPEED_OFF`). -/
def SPEED_TURBO : String := "turbo"

/-- Modelled from the spec: preset name for speed OFF; the spec treats the
speed-named presets and the speeds as the same `SpeedName` namespace. -/
def PRESET_OFF : String := SPEED_OFF

/-- Modelled from the spec: preset name for speed LOW. -/
def PRESET_LOW : String := SPEED_LOW

/-- Modelled from the spec: preset name for speed MEDIUM. -/
def PRESET_MEDIUM : String := SPEED_MEDIUM

/-- Modelled from the spec: preset name for speed HIGH. -/
def PRESET_HIGH : String := SPEED_HIGH

/-- Modelled from the spec: preset name for speed TURBO. -/
def PRESET_TURBO : String := SPEED_TURBO

/-- Modelled from the spec: the ECO preset marker. -/
def PRESET_ECO : String := "eco"

/-- Modelled from the spec: the summer-ventilation preset name. -/
def PRESET_SUMMER_VENT : String := "summer-vent"

/-- Modelled from the spec: the exhaust-only preset name. -/
def PRESET_EXHAUST_ONLY : String := "exhaust-only"

/-- `fan.py:42` -/
def VENTILATION_NORMAL : String := "normal"

/-- `fan.py:43` -/
def VENTILATION_SUMMER : String := "summer"

/-- `fan.py:37`: delay all speed changes to be more than this many seconds
after the last relay switch change. -/
def SPEED_CHANGE_DELAY_SECONDS : ℚ := 4

/-- `fan.py:38`: 0.100 s pause between relay flips. -/
def DELAY_BETWEEN_FLIPS : ℚ := 1/10

/-- `fan.py:39`: 15.0 s minimum delay before disabling summer ventilation. -/
def MINIMUM_DELAY_BETWEEN_STATE_CHANGES : ℚ := 15

/-- Static per-instance configuration of a `LUNOSFan`: the controller-variant
flags read from the model config (`LUNOS_CODING_CONFIG[coding]`), the two
relay entity ids and the fan count. -/
structure FanConfig where
  supports_off : Bool
  supports_summer_vent : Bool
  supports_exhaust_only : Bool
  supports_turbo_mode : Bool
  relay_w1 : String
  relay_w2 : String
  fan_count : ℚ
  default_fan_count : ℚ
  /-- Modelled from the spec: the per-speed `behavior` table (`cfm` entry) of
  `LUNOS_CODING_CONFIG`, which lives in the missing `__init__.py`
  (spec §3 `behaviorBySpeed`). -/
  behavior_cfm : String → Option ℚ

/-- The mutable fields of a `LUNOSFan` instance used by the verified
operations, plus the model clock `now`. -/
structure FanState where
  /-- `self._speed` -/
  speed : Option String
  /-- `self._preset_mode` -/
  preset_mode : String
  /-- `self._attributes[ATTR_VENTILATION_MODE]` -/
  vent_mode : String
  /-- `self._attributes[ATTR_SPEED]` -/
  attr_speed : Option String
  /-- `self._attributes[ATTR_CFM]` -/
  attr_cfm : Option ℚ
  /-- `self._last_state_change` (a `time.time()` value, `None` before the
  first relay mutation) -/
  last_state_change : Option ℚ
  /-- the current wall-clock time `time.time()` -/
  now : ℚ
deriving DecidableEq, Repr

/-- Observable effects of an operation: Home Assistant `switch` service calls
(`hass.services.async_call("switch", method, entity)`) and `asyncio.sleep`s. -/
inductive Eff where
  | callSwitch (method : String) (entity : String)
  | sleep (seconds : ℚ)
deriving DecidableEq, Repr

/-- `fan.py:282-305` `speed_presets`: the speed→percentage table of the
variant, already in ascending percentage order (the source sorts it). -/
def speed_presets (cfg : FanConfig) : List (String × Int) :=
  if cfg.supports_off then
    [(PRESET_OFF, 0), (PRESET_LOW, 33), (PRESET_MEDIUM, 66), (PRESET_HIGH, 100)]
  else
    [(PRESET_LOW, 25), (PRESET_MEDIUM, 50), (PRESET_HIGH, 75), (PRESET_TURBO, 100)]

/-- `fan.py:307-325` `speed_switch_states`: the speed → (W1, W2) relay-pair
codec of the variant (`true` = relay on). -/
def speed_switch_states (cfg : FanConfig) (speed : String) : Option (Bool × Bool) :=
  if cfg.supports_off then
    if speed = SPEED_OFF then some (false, false)
    else if speed = SPEED_LOW then some (true, false)
    else if speed = SPEED_MEDIUM then some (false, true)
    else if speed = SPEED_HIGH then some (true, true)
    else none
  else
    if speed = SPEED_LOW then some (false, false)
    else if speed = SPEED_MEDIUM then some (true, false)
    else if speed = SPEED_HIGH then some (false, true)
    else if speed = SPEED_TURBO then some (true, true)
    else none

/-- Helper: first table entry whose percentage is at or above the request
(the loop body of `speed_name_for_percentage`). -/
def findSpeed : List (String × Int) → Int → Option String
  | [], _ => none
  | (k, v) :: rest, p => if p ≤ v then some k else findSpeed rest p

/-- `fan.py:327-332` `speed_name_for_percentage`: walk the ascending table and
return the first preset whose percentage is `≥` the request; `None` (after
logging an error) when no bucket qualifies. -/
def speed_name_for_percentage (cfg : FanConfig) (percentage : Int) : Option String :=
  findSpeed (speed_presets cfg) percentage

/-- Association-list lookup (Python `dict.get`). -/
def lookupPct : List (String × Int) → String → Option Int
  | [], _ => none
  | (k, v) :: rest, s => if s = k then some v else lookupPct rest s

/-- `fan.py:334-337` `percentage_for_speed`: `None` for a `None` speed, else
the table entry for the speed (`None` if absent). -/
def percentage_for_speed (cfg : FanConfig) (speed : Option String) : Option Int :=
  match speed with
  | none => none
  | some s => lookupPct (speed_presets cfg) s

/-- `fan.py:500-505` `call_switch_service`: call the `switch` service for the
relay entity, then record `self._last_state_change = time.time()`. -/
def call_switch_service (method entity : String) (st : FanState) :
    FanState × List Eff :=
  ({ st with last_state_change := some st.now }, [Eff.callSwitch method entity])

/-- `asyncio.sleep`: advance the clock and record the pause. -/
def sleepE (seconds : ℚ) (st : FanState) : FanState × List Eff :=
  ({ st with now := st.now + seconds }, [Eff.sleep seconds])

/-- `fan.py:507-511` `set_relay_switch_state`: turn the relay on or off via
the `switch` service (`true` = `STATE_ON` → `turn_on`). -/
def set_relay_switch_state (entity : String) (state : Bool) (st : FanState) :
    FanState × List Eff :=
  call_switch_service (if state then SERVICE_TURN_ON else SERVICE_TURN_OFF) entity st

/-- `fan.py:437-446` `_throttle_state_changes`: if less than `required_delay`
seconds passed since `self._last_state_change`, sleep for the remainder.
`time.time() - None` is a Python `TypeError`, modelled as `Except.error`. -/
def throttle_state_changes (required_delay : ℚ) (st : FanState) :
    Except String (FanState × List Eff) :=
  match st.last_state_change with
  | none => .error "TypeError: unsupported operand types: float - NoneType"
  | some t =>
      let time_passed := st.now - t
      if time_passed < required_delay then
        .ok (sleepE (max 0 (required_delay - time_passed)) st)
      else
        .ok (st, [])

/-- `fan.py:225-266` `update_attributes`: refresh the derived attributes from
the current speed.  `ATTR_SPEED` is always rewritten; when a speed is known,
CFM is recomputed from the variant behavior table scaled by the fan
multiplier (`fan_count / default_fan_count`).  (The `chm`-keyed fallback
branch and the dB/watts attributes are not tracked by the model.) -/
def update_attributes (cfg : FanConfig) (st : FanState) : FanState :=
  let st1 := { st with attr_speed := st.speed }
  match st.speed with
  | none => st1
  | some s =>
      { st1 with
        attr_cfm := (cfg.behavior_cfm s).map
          (fun c => c * (cfg.fan_count / cfg.default_fan_count)) }

/-- `fan.py:428-435` `_update_speed`: record the new speed, stamp
`self._last_state_change`, and refresh the derived attributes; a `None`
speed is ignored. -/
def update_speed (cfg : FanConfig) (speed : Option String) (st : FanState) :
    FanState :=
  match speed with
  | none => st
  | some s =>
      update_attributes cfg
        { st with speed := some s, last_state_change := some st.now }

/-- Modelled from the spec: `const.py`'s module-level `SPEED_SWITCH_STATES`
table (indexed at `fan.py:450`) is not in the sources.  Per spec §4.1 the
speed→relay-pair codec is the variant-keyed table (identical to the in-source
`speed_switch_states` method), and per spec §7 an unsupported speed yields no
entry, which `async_set_speed` answers with a warning and no relay action. -/
def SPEED_SWITCH_STATES (cfg : FanConfig) (speed : Option String) :
    Option (Bool × Bool) :=
  match speed with
  | none => none
  | some s => speed_switch_states cfg s

/-- `fan.py:448-469` `async_set_speed`: look the speed up in
`SPEED_SWITCH_STATES`; if unsupported, warn and return; otherwise throttle by
`SPEED_CHANGE_DELAY_SECONDS`, write W1 then W2 to the relay pair, and record
the new speed with its dependent attributes. -/
def async_set_speed (cfg : FanConfig) (speed : Option String) (st : FanState) :
    Except String (FanState × List Eff) :=
  match SPEED_SWITCH_STATES cfg speed with
  | none => .ok (st, [])
  | some (w1s, w2s) =>
      match throttle_state_changes SPEED_CHANGE_DELAY_SECONDS st with
      | .error e => .error e
      | .ok (st1, e1) =>
          let (st2, e2) := set_relay_switch_state cfg.relay_w1 w1s st1
          let (st3, e3) := set_relay_switch_state cfg.relay_w2 w2s st2
          .ok (update_speed cfg speed st3, e1 ++ e2 ++ e3)

/-- `fan.py:339-347` `async_set_percentage`: resolve the percentage to a
speed name, rescale it for the log message, and record the speed via
`_update_speed`.  The body issues no relay commands and never awaits
`async_set_speed`. -/
def async_set_percentage (cfg : FanConfig) (percentage : Int) (st : FanState) :
    FanState × List Eff :=
  let speed := speed_name_for_percentage cfg percentage
  let _scaled_percentage := percentage_for_speed cfg speed
  (update_speed cfg speed st, [])

/-- `fan.py:354-364` `is_on`: false when the speed is unknown; false for any
variant without a true OFF setting; otherwise the speed is not OFF. -/
def is_on (cfg : FanConfig) (st : FanState) : Bool :=
  match st.speed with
  | none => false
  | some s => if ¬cfg.supports_off then false else s ≠ SPEED_OFF

/-- `fan.py:517-524`: the six service methods of the mode-select toggle. -/
def toggle_methods : List String :=
  [SERVICE_TURN_OFF, SERVICE_TURN_ON, SERVICE_TURN_OFF,
   SERVICE_TURN_ON, SERVICE_TURN_OFF, SERVICE_TURN_ON]

/-- The loop body of `fan.py:525-527`: issue each toggle method against the
relay with a `DELAY_BETWEEN_FLIPS` pause after each. -/
def run_toggles (entity : String) : List String → FanState → FanState × List Eff
  | [], st => (st, [])
  | m :: rest, st =>
      let (st1, e1) := call_switch_service m entity st
      let (st2, e2) := sleepE DELAY_BETWEEN_FLIPS st1
      let (st3, e3) := run_toggles entity rest st2
      (st3, e1 ++ e2 ++ e3)

/-- `fan.py:513-530` `toggle_relay_to_set_lunos_mode`: save the current
speed, flip the relay off/on three times (six commands, 100 ms apart), then
restore the saved speed through `async_set_speed`. -/
def toggle_relay_to_set_lunos_mode (cfg : FanConfig) (entity : String)
    (st : FanState) : Except String (FanState × List Eff) :=
  let saved_speed := st.speed
  let (st1, e1) := run_toggles entity toggle_methods st
  match async_set_speed cfg saved_speed st1 with
  | .error e => .error e
  | .ok (st2, e2) => .ok (st2, e1 ++ e2)

/-- `fan.py:532-535` `async_clear_filter_reminder`: the body evaluates
`self.toggle_relay_to_set_lunos_mode(self._relay_w1)` WITHOUT `await`
(contrast `fan.py:551`), so the coroutine object is created and discarded:
no part of the toggle sequence executes, and the state is untouched. -/
def async_clear_filter_reminder (cfg : FanConfig) (st : FanState) :
    FanState × List Eff :=
  (st, [])

/-- `fan.py:153-162` `_init_vent_modes` (the part before the failing
attribute read): the ventilation-mode list of the variant. -/
def vent_modes (cfg : FanConfig) : List String :=
  [VENTILATION_NORMAL]
    ++ (if cfg.supports_summer_vent then [PRESET_SUMMER_VENT] else [])
    ++ (if cfg.supports_exhaust_only then [PRESET_EXHAUST_ONLY] else [])

/-- The `if key not in list: append` accumulation used by `_init_presets`. -/
def addNewKeys (acc : List String) (keys : List String) : List String :=
  keys.foldl (fun a k => if k ∈ a then a else a ++ [k]) acc

/-- `fan.py:169-189` `_init_presets`: ECO, then TURBO when supported, then
every speed-preset key, then every ventilation mode, skipping duplicates. -/
def preset_modes (cfg : FanConfig) : List String :=
  let base := [PRESET_ECO] ++ (if cfg.supports_turbo_mode then [PRESET_TURBO] else [])
  addNewKeys (addNewKeys base ((speed_presets cfg).map Prod.fst)) (vent_modes cfg)

/-- `fan.py:539-540` `supports_summer_ventilation`. -/
def supports_summer_ventilation (cfg : FanConfig) : Bool :=
  PRESET_SUMMER_VENT ∈ preset_modes cfg

/-- `fan.py:371-397` `async_set_preset_mode`: a preset not in
`self.preset_modes` is answered with a warning and an early return
(`fan.py:373-375`).  Any recognized preset then reaches
`speeds = self.preset_speeds()` (`fan.py:377`) — but the class defines no
method `preset_speeds` (the property is named `speed_presets`), so the call
raises `AttributeError` before the dispatch on `preset_mode` can run. -/
def async_set_preset_mode (cfg : FanConfig) (preset_mode : String)
    (st : FanState) : Except String (FanState × List Eff) :=
  if preset_mode ∉ preset_modes cfg then
    .ok (st, [])
  else
    .error "AttributeError: LUNOSFan object has no attribute preset_speeds"

/-- `fan.py:543-554` `async_turn_on_summer_ventilation`: warn and return when
the variant lacks summer ventilation; otherwise run the W2 toggle sequence
and record the SUMMER ventilation mode. -/
def async_turn_on_summer_ventilation (cfg : FanConfig) (st : FanState) :
    Except String (FanState × List Eff) :=
  if ¬supports_summer_ventilation cfg then
    .ok (st, [])
  else
    match toggle_relay_to_set_lunos_mode cfg cfg.relay_w2 st with
    | .error e => .error e
    | .ok (st1, e1) =>
        .ok ({ st1 with preset_mode := PRESET_SUMMER_VENT,
                        vent_mode := VENTILATION_SUMMER }, e1)

/-- `fan.py:556-571` `async_turn_off_summer_ventilation`: return silently
when unsupported; otherwise wait out `MINIMUM_DELAY_BETWEEN_STATE_CHANGES`
since the last relay change, toggle W2 twice with a 100 ms pause between,
and record the ECO preset and NORMAL ventilation mode.  No speed restore. -/
def async_turn_off_summer_ventilation (cfg : FanConfig) (st : FanState) :
    Except String (FanState × List Eff) :=
  if ¬supports_summer_ventilation cfg then
    .ok (st, [])
  else
    match throttle_state_changes MINIMUM_DELAY_BETWEEN_STATE_CHANGES st with
    | .error e => .error e
    | .ok (st1, e1) =>
        let (st2, e2) := call_switch_service SERVICE_TOGGLE cfg.relay_w2 st1
        let (st3, e3) := sleepE DELAY_BETWEEN_FLIPS st2
        let (st4, e4) := call_switch_service SERVICE_TOGGLE cfg.relay_w2 st3
        .ok ({ st4 with preset_mode := PRESET_ECO,
                        vent_mode := VENTILATION_NORMAL },
             e1 ++ e2 ++ e3 ++ e4)

/-- `getattr` over the set of instance-attribute names assigned so far:
a missing name is a Python `AttributeError`. -/
def getattr_check (attrs : List String) (name : String) : Except String Unit :=
  if name ∈ attrs then .ok () else .error ("AttributeError: " ++ name)

/-- `fan.py:95-151` `LUNOSFan.__init__`, tracked at the granularity of which
instance attributes have been assigned, in source order.  `_init_vent_modes`
(`fan.py:153-167`) assigns `self._vent_modes` and then, while building the
dict merged into `self._attributes` (`fan.py:164-167`), reads
`self._ventilation_modes` — a name no statement in the class ever assigns
(the list is `_vent_modes`), so the read raises `AttributeError` for every
configuration.  The config flags only vary the CONTENTS of `_vent_modes`,
never which attribute names exist, so they are irrelevant here.  On success
the function would return the full attribute list (the remainder of
`__init__`: `_init_presets`, the speed probe, `update_attributes`). -/
def lunosfan_init (cfg : FanConfig) : Except String (List String) :=
  let assigned :=
    ["hass", "_name", "entity_id", "_attr_supported_features", "_speed",
     "_last_state_change", "_relay_w1", "_relay_w2", "_model_config",
     "_fan_count", "_attributes", "_vent_modes"]
  match getattr_check assigned "_ventilation_modes" with
  | .error e => .error e
  | .ok _ =>
      .ok (assigned ++ ["_preset_modes", "_default_preset", "_preset_mode"])

/-- The `(method, entity)` pairs of the switch service calls in a trace. -/
def switchCalls : List Eff → List (String × String)
  | [] => []
  | Eff.callSwitch m e :: rest => (m, e) :: switchCalls rest
  | Eff.sleep _ :: rest => switchCalls rest

/-- The wall-clock time at which the first switch service call of a trace is
issued, starting the clock at `t0`. -/
def firstCallTime (t0 : ℚ) : List Eff → Option ℚ
  | [] => none
  | Eff.sleep d :: rest => firstCallTime (t0 + d) rest
  | Eff.callSwitch _ _ :: _ => some t0

/-- A concrete 3-speed-plus-OFF variant (e2-style coding with summer
ventilation), used to instantiate theorems on concrete inputs.  The behavior
CFM numbers are the spec's per-speed airflow figures; their values are
irrelevant to the claims. -/
def cfgOffVariant : FanConfig :=
  { supports_off := true
    supports_summer_vent := true
    supports_exhaust_only := false
    supports_turbo_mode := false
    relay_w1 := "switch.lunos_w1"
    relay_w2 := "switch.lunos_w2"
    fan_count := 2
    default_fan_count := 2
    behavior_cfm := fun s =>
      if s = SPEED_OFF then some 0
      else if s = SPEED_LOW then some 15
      else if s = SPEED_MEDIUM then some 30
      else if s = SPEED_HIGH then some 52
      else none }

/-- A concrete 4-speed, no-OFF variant (eGO-style coding with turbo). -/
def cfgNoOffVariant : FanConfig :=
  { supports_off := false
    supports_summer_vent := false
    supports_exhaust_only := true
    supports_turbo_mode := true
    relay_w1 := "switch.lunos_w1"
    relay_w2 := "switch.lunos_w2"
    fan_count := 1
    default_fan_count := 1
    behavior_cfm := fun s =>
      if s = SPEED_LOW then some 10
      else if s = SPEED_MEDIUM then some 20
      else if s = SPEED_HIGH then some 30
      else if s = SPEED_TURBO then some 45
      else none }

/-- A concrete state running at HIGH, last relay change at t = 100, now
t = 200. -/
def stHighSpeed : FanState :=
  { speed := some SPEED_HIGH
    preset_mode := PRESET_ECO
    vent_mode := VENTILATION_NORMAL
    attr_speed := some SPEED_HIGH
    attr_cfm := some 52
    last_state_change := some 100
    now := 200 }

/-- C1: per spec, `setPercentage(0)` at speed HIGH on the OFF-capable variant
must invoke the Relay Sequencer's `setSpeed`, writing W1 then W2 to the OFF
relay pair.  The code (`fan.py:339-347`) never calls `async_set_speed`: it
records the resolved speed and recomputes the derived attributes, but no
`async_set_percentage` call ever issues a relay command — the relays stay at
the HIGH pair while the recorded speed becomes OFF. -/
theorem set_percentage_records_speed_but_issues_no_relay_commands :
    (∀ cfg percentage st, (async_set_percentage cfg percentage st).2 = []) ∧
      (async_set_percentage cfgOffVariant 0 stHighSpeed).1.speed = some SPEED_OFF ∧
      (async_set_percentage cfgOffVariant 0 stHighSpeed).1.attr_cfm = some 0 := by
  refine ⟨fun cfg percentage st => rfl, by decide, ?_⟩
  simp [async_set_percentage, update_speed, update_attributes,
    speed_name_for_percentage, speed_presets, findSpeed, cfgOffVariant,
    stHighSpeed, PRESET_OFF, SPEED_OFF]

/-- C2: constructing a `LUNOSFan` never completes: for every configuration,
`__init__` reaches `_init_vent_modes`, which reads the never-assigned
attribute `self._ventilation_modes` (`fan.py:166`) and raises
`AttributeError`. -/
theorem lunosfan_init_always_raises_attribute_error :
    ∀ cfg : FanConfig,
      lunosfan_init cfg = .error "AttributeError: _ventilation_modes" :=
  fun _ => rfl

/-- C3: `async_clear_filter_reminder` (`fan.py:533-535`) builds the
`toggle_relay_to_set_lunos_mode(self._relay_w1)` coroutine without awaiting
it, so no command of the six-toggle sequence is executed: the operation
leaves the state untouched and issues no effects at all. -/
theorem clear_filter_reminder_executes_no_toggle :
    ∀ (cfg : FanConfig) (st : FanState),
      async_clear_filter_reminder cfg st = (st, []) :=
  fun _ _ => rfl

/-- C4: every recognized preset (here ECO, always present) makes
`async_set_preset_mode` raise: `fan.py:377` calls `self.preset_speeds()`,
a method the class never defines (the property is `speed_presets`), so the
dispatch of `fan.py:379-397` is unreachable. -/
theorem set_preset_mode_eco_raises_attribute_error :
    async_set_preset_mode cfgOffVariant PRESET_ECO stHighSpeed =
      .error "AttributeError: LUNOSFan object has no attribute preset_speeds" := by
  rfl

/-- C7: a speed with no entry in the variant's relay codec makes
`async_set_speed` return normally with no relay action (only a warning is
logged): `fan.py:451-455`. -/
theorem set_speed_unsupported_takes_no_action
    (cfg : FanConfig) (name : String) (st : FanState)
    (h : speed_switch_states cfg name = none) :
    async_set_speed cfg (some name) st = .ok (st, []) := by
  simp [async_set_speed, SPEED_SWITCH_STATES, h]

/-- C7 witness: TURBO is not in the OFF-capable variant's codec; requesting
it takes no action. -/
theorem set_speed_unsupported_takes_no_action_witness :
    speed_switch_states cfgOffVariant SPEED_TURBO = none ∧
      async_set_speed cfgOffVariant (some SPEED_TURBO) stHighSpeed =
        .ok (stHighSpeed, []) :=
  ⟨by decide,
   set_speed_unsupported_takes_no_action cfgOffVariant SPEED_TURBO stHighSpeed
     (by decide)⟩

/-- C9: converting a supported speed to its percentage and back through the
variant's speed-preset table is the identity. -/
theorem speed_percentage_roundtrip
    (cfg : FanConfig) (s : String) (p : Int)
    (h : percentage_for_speed cfg (some s) = some p) :
    speed_name_for_percentage cfg p = some s := by
  cases hco : cfg.supports_off <;>
    · simp [percentage_for_speed, speed_presets, lookupPct, hco] at h
      split_ifs at h with h1 h2 h3 h4 <;>
        simp only [Option.some.injEq] at h <;>
        subst_vars <;>
        norm_num [speed_name_for_percentage, speed_presets, findSpeed, hco]

/-- C9 witness: MEDIUM ↦ 66 ↦ MEDIUM on the OFF-capable variant. -/
theorem speed_percentage_roundtrip_witness :
    percentage_for_speed cfgOffVariant (some SPEED_MEDIUM) = some 66 ∧
      speed_name_for_percentage cfgOffVariant 66 = some SPEED_MEDIUM :=
  ⟨by decide,
   speed_percentage_roundtrip cfgOffVariant SPEED_MEDIUM 66 (by decide)⟩

/-- C5: a toggle sequence whose saved speed is a supported one issues exactly
six alternating OFF/ON commands against the named relay, a 100 ms pause after
each, then (after the speed-change throttle, which always fires for the
remaining 3.9 s) restores the saved speed by writing W1 and W2 to its relay
pair; the recorded speed afterwards is the saved speed. -/
theorem toggle_sequence_six_flips_then_restores_saved_speed
    (cfg : FanConfig) (entity : String) (st : FanState) (s : String) (a b : Bool)
    (hspeed : st.speed = some s)
    (hpair : speed_switch_states cfg s = some (a, b)) :
    (toggle_relay_to_set_lunos_mode cfg entity st).toOption.map
        (fun r => (r.2, r.1.speed)) =
      some
        ([Eff.callSwitch SERVICE_TURN_OFF entity, Eff.sleep DELAY_BETWEEN_FLIPS,
          Eff.callSwitch SERVICE_TURN_ON entity, Eff.sleep DELAY_BETWEEN_FLIPS,
          Eff.callSwitch SERVICE_TURN_OFF entity, Eff.sleep DELAY_BETWEEN_FLIPS,
          Eff.callSwitch SERVICE_TURN_ON entity, Eff.sleep DELAY_BETWEEN_FLIPS,
          Eff.callSwitch SERVICE_TURN_OFF entity, Eff.sleep DELAY_BETWEEN_FLIPS,
          Eff.callSwitch SERVICE_TURN_ON entity, Eff.sleep DELAY_BETWEEN_FLIPS,
          Eff.sleep (SPEED_CHANGE_DELAY_SECONDS - DELAY_BETWEEN_FLIPS),
          Eff.callSwitch (if a then SERVICE_TURN_ON else SERVICE_TURN_OFF) cfg.relay_w1,
          Eff.callSwitch (if b then SERVICE_TURN_ON else SERVICE_TURN_OFF) cfg.relay_w2],
         some s) := by
  simp [toggle_relay_to_set_lunos_mode, toggle_methods, run_toggles,
    call_switch_service, sleepE, hspeed, async_set_speed, SPEED_SWITCH_STATES,
    hpair, throttle_state_changes, set_relay_switch_state, update_speed,
    update_attributes, DELAY_BETWEEN_FLIPS, SPEED_CHANGE_DELAY_SECONDS]
  ring_nf
  norm_num
  exact ⟨_, _, rfl, rfl, rfl⟩

/-- C5 witness: the toggle sequence against W1 on the OFF-capable variant at
saved speed HIGH ([ON, ON]). -/
theorem toggle_sequence_six_flips_witness :
    stHighSpeed.speed = some SPEED_HIGH ∧
      speed_switch_states cfgOffVariant SPEED_HIGH = some (true, true) ∧
      (toggle_relay_to_set_lunos_mode cfgOffVariant cfgOffVariant.relay_w1
            stHighSpeed).toOption.map
          (fun r => (r.2, r.1.speed)) =
        some
          ([Eff.callSwitch SERVICE_TURN_OFF cfgOffVariant.relay_w1,
            Eff.sleep DELAY_BETWEEN_FLIPS,
            Eff.callSwitch SERVICE_TURN_ON cfgOffVariant.relay_w1,
            Eff.sleep DELAY_BETWEEN_FLIPS,
            Eff.callSwitch SERVICE_TURN_OFF cfgOffVariant.relay_w1,
            Eff.sleep DELAY_BETWEEN_FLIPS,
            Eff.callSwitch SERVICE_TURN_ON cfgOffVariant.relay_w1,
            Eff.sleep DELAY_BETWEEN_FLIPS,
            Eff.callSwitch SERVICE_TURN_OFF cfgOffVariant.relay_w1,
            Eff.sleep DELAY_BETWEEN_FLIPS,
            Eff.callSwitch SERVICE_TURN_ON cfgOffVariant.relay_w1,
            Eff.sleep DELAY_BETWEEN_FLIPS,
            Eff.sleep (SPEED_CHANGE_DELAY_SECONDS - DELAY_BETWEEN_FLIPS),
            Eff.callSwitch SERVICE_TURN_ON cfgOffVariant.relay_w1,
            Eff.callSwitch SERVICE_TURN_ON cfgOffVariant.relay_w2],
           some SPEED_HIGH) :=
  ⟨by decide, by decide,
   toggle_sequence_six_flips_then_restores_saved_speed cfgOffVariant
     cfgOffVariant.relay_w1 stHighSpeed SPEED_HIGH true true (by decide) (by decide)⟩

/-- C6: disabling summer ventilation on a supporting variant waits out the
15 s `MINIMUM_DELAY_BETWEEN_STATE_CHANGES` since the last relay change (the
first command is issued at a time `u ≥ t + 15`), issues exactly two `toggle`
commands against relay W2 (and no other switch command, in particular no
`async_set_speed` relay writes — the recorded speed is untouched), and
records the ECO preset and NORMAL ventilation mode. -/
theorem summer_vent_disable_waits_then_toggles_w2_twice
    (cfg : FanConfig) (st : FanState) (t : ℚ)
    (hsupp : supports_summer_ventilation cfg = true)
    (hlast : st.last_state_change = some t) :
    ∃ u,
      (async_turn_off_summer_ventilation cfg st).toOption.map
          (fun r => (switchCalls r.2, firstCallTime st.now r.2,
                     r.1.vent_mode, r.1.preset_mode, r.1.speed)) =
        some ([(SERVICE_TOGGLE, cfg.relay_w2), (SERVICE_TOGGLE, cfg.relay_w2)],
              some u, VENTILATION_NORMAL, PRESET_ECO, st.speed) ∧
      t + MINIMUM_DELAY_BETWEEN_STATE_CHANGES ≤ u := by
  rcases lt_or_le (st.now - t) MINIMUM_DELAY_BETWEEN_STATE_CHANGES with hlt | hge
  · refine ⟨t + MINIMUM_DELAY_BETWEEN_STATE_CHANGES, ?_, le_refl _⟩
    simp [async_turn_off_summer_ventilation, hsupp, throttle_state_changes,
      hlast, hlt, sleepE, call_switch_service, switchCalls, firstCallTime]
    refine ⟨_, _, rfl, rfl, ?_, rfl, rfl, rfl⟩
    simp [firstCallTime]
    rw [max_eq_right (by linarith)]
    ring
  · refine ⟨st.now, ?_, by linarith⟩
    simp [async_turn_off_summer_ventilation, hsupp, throttle_state_changes,
      hlast, not_lt.mpr hge, sleepE, call_switch_service, switchCalls,
      firstCallTime]
    exact ⟨_, _, rfl, rfl, rfl, rfl, rfl, rfl⟩

/-- C6 witness: disable at t = 200 with the last relay change at t = 100
(elapsed 100 s ≥ 15 s, so the first toggle is issued immediately at 200). -/
theorem summer_vent_disable_witness :
    supports_summer_ventilation cfgOffVariant = true ∧
      stHighSpeed.last_state_change = some 100 ∧
      (∃ u,
        (async_turn_off_summer_ventilation cfgOffVariant stHighSpeed).toOption.map
            (fun r => (switchCalls r.2, firstCallTime stHighSpeed.now r.2,
                       r.1.vent_mode, r.1.preset_mode, r.1.speed)) =
          some ([(SERVICE_TOGGLE, cfgOffVariant.relay_w2),
                 (SERVICE_TOGGLE, cfgOffVariant.relay_w2)],
                some u, VENTILATION_NORMAL, PRESET_ECO, stHighSpeed.speed) ∧
        100 + MINIMUM_DELAY_BETWEEN_STATE_CHANGES ≤ u) :=
  ⟨by decide, by decide,
   summer_vent_disable_waits_then_toggles_w2_twice cfgOffVariant stHighSpeed 100
     (by decide) (by decide)⟩

/-- `s` names a bucket of the variant's speed-preset table whose percentage
is at or above `p` and minimal among all such buckets ("the nearest bucket at
or above `p`"). -/
def isNearestBucketAtOrAbove (cfg : FanConfig) (p : Int) (s : String) : Prop :=
  ∃ kv ∈ (speed_presets cfg).filter (fun kv => decide (p ≤ kv.2)),
    kv.1 = s ∧
      ∀ kv2 ∈ (speed_presets cfg).filter (fun kv2 => decide (p ≤ kv2.2)),
        kv.2 ≤ kv2.2

/-- C8 counterexample: at `p = -1` (outside `[0, 100]`) the codec does not
fail — `fan.py:329` accepts any percentage at or below the first bucket, so
`-1` resolves to OFF on the OFF-capable variant.  The claimed equivalence
"fails exactly when p is outside [0,100]" is false at this input. -/
theorem speed_for_out_of_range_percentage_cex :
    ¬(speed_name_for_percentage cfgOffVariant (-1) = none ↔
        ((-1 : Int) < 0 ∨ 100 < (-1 : Int))) := by
  decide

/-- C8 (amended): `speed_name_for_percentage` fails exactly when the
percentage exceeds 100 (any percentage below the lowest bucket, negative ones
included, resolves to the lowest bucket), and every returned speed names the
nearest bucket at or above the request. -/
theorem speed_for_percentage_nearest_bucket
    (cfg : FanConfig) (p : Int) :
    (speed_name_for_percentage cfg p = none ↔ 100 < p) ∧
      ∀ s, speed_name_for_percentage cfg p = some s →
        isNearestBucketAtOrAbove cfg p s := by
  cases hco : cfg.supports_off
  all_goals constructor
  · simp only [speed_name_for_percentage, speed_presets, hco, Bool.false_eq_true,
      if_false, findSpeed]
    split_ifs <;> simp_all <;> omega
  · intro s hs
    simp only [speed_name_for_percentage, speed_presets, hco, Bool.false_eq_true,
      if_false, findSpeed] at hs
    split_ifs at hs with h1 h2 h3 h4
    · injection hs with hs; subst hs
      refine ⟨(PRESET_LOW, 25), List.mem_filter.mpr ⟨by simp [speed_presets, hco],
        by simp; omega⟩, rfl, ?_⟩
      intro kv2 hkv2
      rcases List.mem_filter.mp hkv2 with ⟨hmem, hle⟩
      simp [speed_presets, hco] at hmem
      rcases hmem with rfl | rfl | rfl | rfl <;> simp at hle ⊢ <;> omega
    · injection hs with hs; subst hs
      refine ⟨(PRESET_MEDIUM, 50), List.mem_filter.mpr ⟨by simp [speed_presets, hco],
        by simp; omega⟩, rfl, ?_⟩
      intro kv2 hkv2
      rcases List.mem_filter.mp hkv2 with ⟨hmem, hle⟩
      simp [speed_presets, hco] at hmem
      rcases hmem with rfl | rfl | rfl | rfl <;> simp at hle ⊢ <;> omega
    · injection hs with hs; subst hs
      refine ⟨(PRESET_HIGH, 75), List.mem_filter.mpr ⟨by simp [speed_presets, hco],
        by simp; omega⟩, rfl, ?_⟩
      intro kv2 hkv2
      rcases List.mem_filter.mp hkv2 with ⟨hmem, hle⟩
      simp [speed_presets, hco] at hmem
      rcases hmem with rfl | rfl | rfl | rfl <;> simp at hle ⊢ <;> omega
    · injection hs with hs; subst hs
      refine ⟨(PRESET_TURBO, 100), List.mem_filter.mpr ⟨by simp [speed_presets, hco],
        by simp; omega⟩, rfl, ?_⟩
      intro kv2 hkv2
      rcases List.mem_filter.mp hkv2 with ⟨hmem, hle⟩
      simp [speed_presets, hco] at hmem
      rcases hmem with rfl | rfl | rfl | rfl <;> simp at hle ⊢ <;> omega
  · simp only [speed_name_for_percentage, speed_presets, hco, if_true, findSpeed]
    split_ifs <;> simp_all <;> omega
  · intro s hs
    simp only [speed_name_for_percentage, speed_presets, hco, if_true,
      findSpeed] at hs
    split_ifs at hs with h1 h2 h3 h4
    · injection hs with hs; subst hs
      refine ⟨(PRESET_OFF, 0), List.mem_filter.mpr ⟨by simp [speed_presets, hco],
        by simp; omega⟩, rfl, ?_⟩
      intro kv2 hkv2
      rcases List.mem_filter.mp hkv2 with ⟨hmem, hle⟩
      simp [speed_presets, hco] at hmem
      rcases hmem with rfl | rfl | rfl | rfl <;> simp at hle ⊢ <;> omega
    · injection hs with hs; subst hs
      refine ⟨(PRESET_LOW, 33), List.mem_filter.mpr ⟨by simp [speed_presets, hco],
        by simp; omega⟩, rfl, ?_⟩
      intro kv2 hkv2
      rcases List.mem_filter.mp hkv2 with ⟨hmem, hle⟩
      simp [speed_presets, hco] at hmem
      rcases hmem with rfl | rfl | rfl | rfl <;> simp at hle ⊢ <;> omega
    · injection hs with hs; subst hs
      refine ⟨(PRESET_MEDIUM, 66), List.mem_filter.mpr ⟨by simp [speed_presets, hco],
        by simp; omega⟩, rfl, ?_⟩
      intro kv2 hkv2
      rcases List.mem_filter.mp hkv2 with ⟨hmem, hle⟩
      simp [speed_presets, hco] at hmem
      rcases hmem with rfl | rfl | rfl | rfl <;> simp at hle ⊢ <;> omega
    · injection hs with hs; subst hs
      refine ⟨(PRESET_HIGH, 100), List.mem_filter.mpr ⟨by simp [speed_presets, hco],
        by simp; omega⟩, rfl, ?_⟩
      intro kv2 hkv2
      rcases List.mem_filter.mp hkv2 with ⟨hmem, hle⟩
      simp [speed_presets, hco] at hmem
      rcases hmem with rfl | rfl | rfl | rfl <;> simp at hle ⊢ <;> omega

/-- C8 witness: `p = 40` on the OFF-capable variant resolves to MEDIUM (the
nearest bucket at or above 40), and the failure condition `100 < 40` is
false. -/
theorem speed_for_percentage_nearest_bucket_witness :
    speed_name_for_percentage cfgOffVariant 40 = some SPEED_MEDIUM ∧
      isNearestBucketAtOrAbove cfgOffVariant 40 SPEED_MEDIUM :=
  ⟨by decide,
   (speed_for_percentage_nearest_bucket cfgOffVariant 40).2 SPEED_MEDIUM
     (by decide)⟩

/-- C10: `is_on` is `false` for every no-OFF variant regardless of the
current speed, and `false` whenever the current speed is unknown
(`fan.py:354-364`). -/
theorem is_on_false_without_off_support_or_unknown_speed
    (cfg : FanConfig) (st : FanState)
    (h : cfg.supports_off = false ∨ st.speed = none) :
    is_on cfg st = false := by
  rcases h with h | h
  · cases hs : st.speed <;> simp [is_on, hs, h]
  · simp [is_on, h]

/-- C10 witness: the no-OFF variant running at HIGH still reports `is_on`
false. -/
theorem is_on_false_without_off_support_witness :
    (cfgNoOffVariant.supports_off = false ∨ stHighSpeed.speed = none) ∧
      is_on cfgNoOffVariant stHighSpeed = false :=
  ⟨Or.inl (by decide),
   is_on_false_without_off_support_or_unknown_speed cfgNoOffVariant stHighSpeed
     (Or.inl (by decide))⟩
